import Mathlib

/-!
Verification of the pagination / showcase / lightbox controller of
`src/NftGallery.tsx` (react-nft-gallery).

The component is shallowly embedded as a state machine: the React `useState`
cells become fields of `GalleryState`, the event handlers (InView sentinel,
load-more click, fetch resolution, keydown, item click, external hash change)
become a `step` function on that state, and the two remote collaborators
(`resolveEnsDomain`, `fetchOpenseaAssets(ByContract)`) are observed through an
emitted trace of `AdapterCall`s.  The page-size constant `OPENSEA_API_OFFSET`
(defined in `api.ts`, outside the provided sources) is kept abstract as a
parameter `K`.
-/

set_option autoImplicit false

namespace NftGallery

/-- Mirrors the nested `asset.asset_contract` record of `OpenseaAsset`
(`types/OpenseaAsset.ts` is not in the provided sources; only the `address`
field is read by `NftGallery.tsx`, line 157). -/
structure AssetContract where
  address : String
deriving DecidableEq, Repr

/-- Modelled from the spec: an Asset is an opaque record with a stable `id`
and a `(contractAddress, tokenId)` pair forming its composite key; the other
display metadata is never read by the controller logic and is omitted.
The fields mirror the accesses in `NftGallery.tsx` (`asset.id` line 258,
`asset.asset_contract.address` and `asset.token_id` line 157). -/
structure OpenseaAsset where
  id : Nat
  token_id : String
  asset_contract : AssetContract
deriving DecidableEq, Repr

/-- The composite showcase key, mirroring the template literal
`${asset.asset_contract.address}/${asset.token_id}` (line 157). -/
def compositeKey (a : OpenseaAsset) : String :=
  a.asset_contract.address ++ "/" ++ a.token_id

/-- The props of `NftGallery` that the controller logic reads
(lines 106-121); presentational style props are omitted. -/
structure Config where
  ownerAddress : String
  contractAddress : String
  devnet : Bool
  showcaseMode : Bool
  showcaseItemIds : Option (List String)
  hasLightbox : Bool
  hasLoadMoreButton : Bool
deriving Repr

/-- One outstanding (in-flight) `loadAssets` call: the `offset` it was issued
with and whether the `assets` closed over by that call were empty (both the
`setIsLoading(true)` at line 137 and the `setIsLoading(false)` at line 149
test the same closed-over `assets`). -/
structure Pending where
  offset : Nat
  closureEmpty : Bool
deriving DecidableEq, Repr

/-- The `useState` cells of `NftGallery` (lines 122-127) together with the
pieces of browser / library state the handlers read: the URL hash
(`window.location.hash`), the set of `InView` sentinels that have already
fired (`triggerOnce`, line 250), and the in-flight `loadAssets` calls. -/
structure GalleryState where
  assets : List OpenseaAsset
  showcaseAssets : List OpenseaAsset
  currentOffset : Nat
  canLoadMore : Bool
  isLoading : Bool
  lightboxIndex : Nat
  hash : String
  firedSentinels : List Nat
  pending : List Pending
deriving DecidableEq, Repr

/-- The initial values of the `useState` cells (lines 122-127), an empty
hash, no fired sentinels and no in-flight fetch. -/
def initState : GalleryState :=
  { assets := [], showcaseAssets := [], currentOffset := 0, canLoadMore := false,
    isLoading := false, lightboxIndex := 0, hash := "", firedSentinels := [],
    pending := [] }

/-- Modelled from the spec: `isEnsDomain` (in `utils.ts`, not in the provided
sources) recognises a human-readable name by a simple suffix convention,
"ends in a recognized name-service TLD". -/
def isEnsDomain (s : String) : Bool :=
  ".eth".data.isSuffixOf s.data

/-- One remote operation of the Asset Source Adapter (`api.ts`):
`resolveEnsDomain`, `fetchOpenseaAssets` or `fetchOpenseaAssetsByContract`. -/
inductive AdapterCall where
  | resolveName (name : String)
  | fetchAssets (owner : String) (offset : Nat)
  | fetchAssetsByContract (owner contract : String) (devnet : Bool) (offset : Nat)
deriving DecidableEq, Repr

/-- Whether an adapter call is a page fetch (as opposed to name resolution). -/
def isFetchCall : AdapterCall → Bool
  | .resolveName _ => false
  | .fetchAssets _ _ => true
  | .fetchAssetsByContract _ _ _ _ => true

/-- The page-fetch call chosen at lines 142-146: `fetchOpenseaAssets` when
`contractAddress` is falsy (the default is the empty string, line 108),
`fetchOpenseaAssetsByContract` otherwise. -/
def fetchPageCall (owner contract : String) (devnet : Bool) (offset : Nat) : AdapterCall :=
  if contract = "" then .fetchAssets owner offset
  else .fetchAssetsByContract owner contract devnet offset

/-- Whether an `Except` result is a failure (a rejected promise). -/
def exceptFailed : Except Unit String → Bool
  | .error _ => true
  | .ok _ => false

/-- The ordered trace of adapter calls made by one `loadAssets` invocation
(lines 138-146): for an ENS owner the resolution call comes first and the
page fetch is only issued, with the resolved address, if resolution
succeeds; a non-ENS owner is used directly with no resolution call. -/
def loadAssetsCalls (owner contract : String) (devnet : Bool) (offset : Nat)
    (resolver : String → Except Unit String) : List AdapterCall :=
  if isEnsDomain owner then
    match resolver owner with
    | .error _ => [.resolveName owner]
    | .ok addr => [.resolveName owner, fetchPageCall addr contract devnet offset]
  else [fetchPageCall owner contract devnet offset]

/-- Issuing one `loadAssets` call (lines 131-146 up to the awaits): sets the
initial-loading flag when the closed-over `assets` are empty (line 137),
emits the adapter calls, and records the in-flight fetch unless name
resolution failed (in which case the async function throws before the page
fetch and nothing further happens). -/
def issueFetch (c : Config) (resolver : String → Except Unit String)
    (s : GalleryState) : GalleryState × List AdapterCall :=
  let s1 := { s with isLoading := if s.assets.isEmpty then true else s.isLoading }
  let calls := loadAssetsCalls c.ownerAddress c.contractAddress c.devnet
    s1.currentOffset resolver
  if isEnsDomain c.ownerAddress && exceptFailed (resolver c.ownerAddress) then
    (s1, calls)
  else
    ({ s1 with pending := s1.pending ++ [⟨s1.currentOffset, s.assets.isEmpty⟩] }, calls)

/-- Model of a `requestNextPage` intent: `setCurrentOffset(prev => prev + OPENSEA_API_OFFSET)`
(lines 252-256 and 288-292), upon which the `useEffect` on
`[ownerAddress, currentOffset]` (lines 199-201) runs `loadAssets` at the new
offset. -/
def requestNextPage (c : Config) (K : Nat) (resolver : String → Except Unit String)
    (s : GalleryState) : GalleryState × List AdapterCall :=
  issueFetch c resolver { s with currentOffset := s.currentOffset + K }

/-- Function `updateShowcaseAssets` (lines 152-160): keep the assets whose composite
key is listed in `showcaseItemIds`. -/
def updateShowcaseAssets (allAssets : List OpenseaAsset) (itemIds : List String) :
    List OpenseaAsset :=
  allAssets.filter (fun asset => itemIds.contains (compositeKey asset))

/-- The showcase `useEffect` (lines 203-207): recompute `showcaseAssets` only
when `assets` is nonempty, showcase mode is on, and `showcaseItemIds` is
actually an array (`Array.isArray`). -/
def applyShowcaseEffect (c : Config) (s : GalleryState) : GalleryState :=
  match c.showcaseItemIds with
  | some itemIds =>
      if s.assets.length ≠ 0 ∧ c.showcaseMode = true then
        { s with showcaseAssets := updateShowcaseAssets s.assets itemIds }
      else s
  | none => s

/-- Definition `displayedAssets` (line 129): `showcaseMode ? showcaseAssets : assets`. -/
def displayedAssets (c : Config) (s : GalleryState) : List OpenseaAsset :=
  if c.showcaseMode then s.showcaseAssets else s.assets

/-- JavaScript `String.prototype.includes`: `pat` occurs as a contiguous
substring of `s`. -/
def strIncludes (s pat : String) : Bool :=
  (List.range (s.length + 1)).any fun i => ((s.data.drop i).take pat.length) == pat.data

/-- Predicate `hasActiveLightbox` (lines 164-166): the hash contains `lightbox-` and is
not the untarget hash. -/
def hasActiveLightbox (hash : String) : Bool :=
  strIncludes hash "lightbox-" && !(hash == "#lightbox-untarget")

/-- The keys distinguished by the `switch` at lines 187-196. -/
inductive Key where
  | arrowLeft
  | arrowRight
  | escape
  | other
deriving DecidableEq, Repr

/-- Handler `decreaseLightboxIndex` (lines 172-178): no-op at index 0, otherwise
decrement and navigate to the new lightbox hash. -/
def decreaseLightboxIndex (s : GalleryState) : GalleryState :=
  if s.lightboxIndex = 0 then s
  else
    { s with lightboxIndex := s.lightboxIndex - 1,
             hash := "#lightbox-" ++ toString (s.lightboxIndex - 1) }

/-- Handler `increaseLightboxIndex` (lines 179-185): no-op when the index equals
`assets.length - 1` (JavaScript arithmetic, so the comparison is over `Int`:
with no assets the bound is `-1`), otherwise increment and navigate. -/
def increaseLightboxIndex (s : GalleryState) : GalleryState :=
  if (s.lightboxIndex : Int) = (s.assets.length : Int) - 1 then s
  else
    { s with lightboxIndex := s.lightboxIndex + 1,
             hash := "#lightbox-" ++ toString (s.lightboxIndex + 1) }

/-- Handler `handleKeydownEvent` (lines 163-197): ignore every key while no lightbox
is active; otherwise ArrowLeft/ArrowRight navigate and Escape navigates to
the untarget hash. -/
def handleKeydownEvent (s : GalleryState) (k : Key) : GalleryState :=
  if hasActiveLightbox s.hash then
    match k with
    | .arrowLeft => decreaseLightboxIndex s
    | .arrowRight => increaseLightboxIndex s
    | .escape => { s with hash := "#lightbox-untarget" }
    | .other => s
  else s

deriving instance DecidableEq for Except

/-- The external events the component reacts to. -/
inductive Event where
  | sentinelInView (i : Nat)
  | loadMoreClick
  | fetchResolved (result : Except Unit (List OpenseaAsset))
  | keydown (k : Key)
  | itemClick (i : Nat)
  | hashChange (h : String)
deriving DecidableEq, Repr

/-- One reaction of the component to an external event, returning the new
state and the adapter calls issued.

* `sentinelInView i`: the `InView` wrapper around the displayed item at index
  `i` reports in-view.  Such a wrapper exists only for `isLastItemInPage`
  positions (`(index + 1) % OPENSEA_API_OFFSET === 0`, line 247), only while
  the grid is rendered (`isLoading` false, line 227), and `triggerOnce`
  (line 250) makes it report at most once.  Its `onChange` (lines 251-257)
  requests the next page only when `hasLoadMoreButton` is off.
* `loadMoreClick`: the `LoadMoreButton` (lines 286-294) is rendered only when
  `hasLoadMoreButton && canLoadMore` and the grid is shown; its `onClick`
  requests the next page unconditionally.
* `fetchResolved r`: the oldest in-flight `loadAssets` resolves.  On success
  the returned page is appended (line 147), `canLoadMore` is recomputed as
  `rawAssets.length === OPENSEA_API_OFFSET` (line 148), the initial-loading
  flag is cleared if the closed-over assets were empty (line 149), and the
  showcase `useEffect` reruns.  On failure the async function throws and none
  of those statements run.
* `keydown k`: the document-level key listener (lines 209-214).
* `itemClick i`: modelled from the spec: activating a gallery item enters
  `open(i)` where `i` is the item's position in the currently displayed list
  (the `GalleryItem` component receiving `setLightboxIndex` is not in the
  provided sources); gated on the `hasLightbox` flag.
* `hashChange h`: an external change of `window.location.hash` (the lightbox
  overlay is observed through the URL fragment and may be toggled from
  outside the component). -/
def step (c : Config) (K : Nat) (resolver : String → Except Unit String)
    (s : GalleryState) : Event → GalleryState × List AdapterCall
  | .sentinelInView i =>
      if i < (displayedAssets c s).length ∧ (i + 1) % K = 0 ∧
          i ∉ s.firedSentinels ∧ s.isLoading = false then
        let s1 := { s with firedSentinels := i :: s.firedSentinels }
        if c.hasLoadMoreButton then (s1, []) else requestNextPage c K resolver s1
      else (s, [])
  | .loadMoreClick =>
      if c.hasLoadMoreButton = true ∧ s.canLoadMore = true ∧ s.isLoading = false then
        requestNextPage c K resolver s
      else (s, [])
  | .fetchResolved result =>
      match s.pending with
      | [] => (s, [])
      | p :: rest =>
          match result with
          | .error _ => ({ s with pending := rest }, [])
          | .ok rawAssets =>
              let s1 := { s with pending := rest,
                                 assets := s.assets ++ rawAssets,
                                 canLoadMore := rawAssets.length == K,
                                 isLoading := if p.closureEmpty then false else s.isLoading }
              (applyShowcaseEffect c s1, [])
  | .keydown k => (handleKeydownEvent s k, [])
  | .itemClick i =>
      if c.hasLightbox = true ∧ i < (displayedAssets c s).length then
        ({ s with lightboxIndex := i, hash := "#lightbox-" ++ toString i }, [])
      else (s, [])
  | .hashChange h => ({ s with hash := h }, [])

/-- The state right after mounting: the `useEffect` on
`[ownerAddress, currentOffset]` (lines 199-201) runs `loadAssets` at offset 0. -/
def mounted (c : Config) (resolver : String → Except Unit String) :
    GalleryState × List AdapterCall :=
  issueFetch c resolver initState

/-- Run a sequence of events, accumulating the adapter-call trace. -/
def run (c : Config) (K : Nat) (resolver : String → Except Unit String)
    (s : GalleryState) : List Event → GalleryState × List AdapterCall
  | [] => (s, [])
  | e :: es =>
      let out := step c K resolver s e
      let out2 := run c K resolver out.1 es
      (out2.1, out.2 ++ out2.2)

/-- The page appended to `assets` by one event: exactly the successful
resolution of an in-flight fetch appends, and it appends its page verbatim. -/
def stepPages (s : GalleryState) : Event → List (List OpenseaAsset)
  | .fetchResolved (.ok rawAssets) => if s.pending.isEmpty then [] else [rawAssets]
  | _ => []

/-- The pages appended along a run, in resolution order. -/
def okPagesRun (c : Config) (K : Nat) (resolver : String → Except Unit String)
    (s : GalleryState) : List Event → List (List OpenseaAsset)
  | [] => []
  | e :: es => stepPages s e ++ okPagesRun c K resolver (step c K resolver s e).1 es

/-- An event respects the adapter page contract: a successful page has at
most `K` items (the API serves pages of the fixed page-size constant). -/
def pageOk (K : Nat) : Event → Bool
  | .fetchResolved (.ok rawAssets) => rawAssets.length ≤ K
  | _ => true

/-- Apply a list of keyboard events in order. -/
def runKeys (s : GalleryState) (ks : List Key) : GalleryState :=
  ks.foldl handleKeydownEvent s

/-- A concrete asset for test inputs. -/
def mkAsset (n : Nat) : OpenseaAsset :=
  ⟨n, toString n, ⟨"0xc"⟩⟩

/-- A concrete configuration: load-more button mode, no showcase. -/
def cfgButton : Config := ⟨"0xowner", "", false, false, none, true, true⟩

/-- A concrete configuration: infinite-scroll mode, no showcase. -/
def cfgScroll : Config := ⟨"0xowner", "", false, false, none, true, false⟩

/-- A concrete configuration: showcase mode with a one-key allow-list. -/
def cfgShow : Config := ⟨"0xowner", "", false, true, some ["0xc/1"], true, false⟩

/-- A concrete resolver that always succeeds. -/
def okResolver : String → Except Unit String := fun _ => .ok "0xowner"

/-- A concrete configuration with an ENS owner. -/
def cfgEns : Config := ⟨"vitalik.eth", "", false, false, none, true, false⟩

/-- A concrete configuration: showcase mode with no allow-list supplied. -/
def cfgShowNone : Config := ⟨"0xowner", "", false, true, none, true, false⟩

/-- A concrete resolver that resolves exactly the ENS name of `cfgEns`. -/
def vitalikResolver : String → Except Unit String :=
  fun s => if s = "vitalik.eth" then .ok "0xd8dA0000" else .error ()

/-- A concrete resolver that always fails. -/
def failResolver : String → Except Unit String := fun _ => .error ()

/-- A concrete state with one fetch in flight at offset 20 and the
initial-loading indicator engaged. -/
def sFail : GalleryState :=
  { initState with pending := [⟨20, false⟩], currentOffset := 20, isLoading := true }

/-- A concrete state with one fetch in flight, load-more enabled and the
sentinel at index 1 already fired. -/
def sInflight : GalleryState :=
  { initState with canLoadMore := true, pending := [⟨20, false⟩],
                   currentOffset := 20, firedSentinels := [1] }

/-- A concrete state with an active lightbox hash. -/
def sActive : GalleryState := { initState with hash := "#lightbox-0" }

/-- Representation invariant for `showcaseAssets`: when showcase mode is off
the showcase `useEffect` never runs, so the list stays at its initial `[]`;
when it is on, the list is either still `[]` or the filter of the current
accumulated list by the (present) allow-list. -/
def ShowRep (c : Config) (s : GalleryState) : Prop :=
  (c.showcaseMode = false → s.showcaseAssets = [])
  ∧ (c.showcaseMode = true →
      s.showcaseAssets = [] ∨
        ∃ ids : List String, c.showcaseItemIds = some ids
          ∧ s.showcaseAssets = updateShowcaseAssets s.assets ids)

/-- Reachability invariant of the controller, parametrised by the number `R`
of fetches resolved so far.  `count` records that in infinite-scroll mode
every dispatched fetch beyond the mount fetch was triggered by a distinct
sentinel firing; `lenle`/`exh` record that `R` pages of at most `K` items
each have been appended, the last one short whenever `canLoadMore` is
false. -/
structure Inv (c : Config) (K : Nat) (s : GalleryState) (R : Nat) : Prop where
  nodup : s.firedSentinels.Nodup
  mem : ∀ i ∈ s.firedSentinels, (i + 1) % K = 0 ∧ i < (displayedAssets c s).length
  count : c.hasLoadMoreButton = false →
    R + s.pending.length ≤ s.firedSentinels.length + 1
  lenle : s.assets.length ≤ R * K
  exh : s.canLoadMore = false → R = 0 ∨ s.assets.length < R * K
  rep : ShowRep c s

/-- Quiescence after exhaustion: `canLoadMore` is off (so the load-more
button is not rendered), no fetch is in flight, and in infinite-scroll mode
every sentinel position of the displayed list has already fired its
`triggerOnce` observer. -/
def Quiescent (c : Config) (K : Nat) (s : GalleryState) : Prop :=
  s.canLoadMore = false ∧ s.pending = []
  ∧ (c.hasLoadMoreButton = false →
      ∀ i : Nat, (i + 1) % K = 0 → i < (displayedAssets c s).length →
        i ∈ s.firedSentinels)

/-! ### Basic frame lemmas about the step functions -/

theorem issueFetch_assets (c : Config) (r : String → Except Unit String)
    (s : GalleryState) : (issueFetch c r s).1.assets = s.assets := by
  unfold issueFetch
  split <;> split <;> rfl

theorem issueFetch_showcaseAssets (c : Config) (r : String → Except Unit String)
    (s : GalleryState) : (issueFetch c r s).1.showcaseAssets = s.showcaseAssets := by
  unfold issueFetch
  split <;> split <;> rfl

theorem issueFetch_canLoadMore (c : Config) (r : String → Except Unit String)
    (s : GalleryState) : (issueFetch c r s).1.canLoadMore = s.canLoadMore := by
  unfold issueFetch
  split <;> split <;> rfl

theorem issueFetch_currentOffset (c : Config) (r : String → Except Unit String)
    (s : GalleryState) : (issueFetch c r s).1.currentOffset = s.currentOffset := by
  unfold issueFetch
  split <;> split <;> rfl

theorem issueFetch_firedSentinels (c : Config) (r : String → Except Unit String)
    (s : GalleryState) : (issueFetch c r s).1.firedSentinels = s.firedSentinels := by
  unfold issueFetch
  split <;> split <;> rfl

theorem issueFetch_pending_length (c : Config) (r : String → Except Unit String)
    (s : GalleryState) :
    (issueFetch c r s).1.pending.length ≤ s.pending.length + 1 := by
  unfold issueFetch
  split <;> split <;> simp

theorem loadAssetsCalls_ne_nil (owner contract : String) (devnet : Bool) (offset : Nat)
    (resolver : String → Except Unit String) :
    loadAssetsCalls owner contract devnet offset resolver ≠ [] := by
  unfold loadAssetsCalls
  split
  · split <;> simp
  · simp

theorem issueFetch_calls (c : Config) (r : String → Except Unit String)
    (s : GalleryState) :
    (issueFetch c r s).2
      = loadAssetsCalls c.ownerAddress c.contractAddress c.devnet s.currentOffset r := by
  unfold issueFetch
  split <;> split <;> rfl

theorem issueFetch_calls_ne_nil (c : Config) (r : String → Except Unit String)
    (s : GalleryState) : (issueFetch c r s).2 ≠ [] := by
  rw [issueFetch_calls]
  exact loadAssetsCalls_ne_nil c.ownerAddress c.contractAddress c.devnet s.currentOffset r

theorem requestNextPage_assets (c : Config) (K : Nat) (r : String → Except Unit String)
    (s : GalleryState) : (requestNextPage c K r s).1.assets = s.assets :=
  issueFetch_assets ..

theorem requestNextPage_showcaseAssets (c : Config) (K : Nat)
    (r : String → Except Unit String) (s : GalleryState) :
    (requestNextPage c K r s).1.showcaseAssets = s.showcaseAssets :=
  issueFetch_showcaseAssets ..

theorem requestNextPage_canLoadMore (c : Config) (K : Nat)
    (r : String → Except Unit String) (s : GalleryState) :
    (requestNextPage c K r s).1.canLoadMore = s.canLoadMore :=
  issueFetch_canLoadMore ..

theorem requestNextPage_currentOffset (c : Config) (K : Nat)
    (r : String → Except Unit String) (s : GalleryState) :
    (requestNextPage c K r s).1.currentOffset = s.currentOffset + K :=
  issueFetch_currentOffset ..

theorem requestNextPage_firedSentinels (c : Config) (K : Nat)
    (r : String → Except Unit String) (s : GalleryState) :
    (requestNextPage c K r s).1.firedSentinels = s.firedSentinels :=
  issueFetch_firedSentinels ..

theorem applyShowcaseEffect_assets (c : Config) (s : GalleryState) :
    (applyShowcaseEffect c s).assets = s.assets := by
  unfold applyShowcaseEffect
  split
  · split <;> rfl
  · rfl

theorem applyShowcaseEffect_canLoadMore (c : Config) (s : GalleryState) :
    (applyShowcaseEffect c s).canLoadMore = s.canLoadMore := by
  unfold applyShowcaseEffect
  split
  · split <;> rfl
  · rfl

theorem applyShowcaseEffect_currentOffset (c : Config) (s : GalleryState) :
    (applyShowcaseEffect c s).currentOffset = s.currentOffset := by
  unfold applyShowcaseEffect
  split
  · split <;> rfl
  · rfl

theorem applyShowcaseEffect_isLoading (c : Config) (s : GalleryState) :
    (applyShowcaseEffect c s).isLoading = s.isLoading := by
  unfold applyShowcaseEffect
  split
  · split <;> rfl
  · rfl

theorem applyShowcaseEffect_pending (c : Config) (s : GalleryState) :
    (applyShowcaseEffect c s).pending = s.pending := by
  unfold applyShowcaseEffect
  split
  · split <;> rfl
  · rfl

theorem applyShowcaseEffect_firedSentinels (c : Config) (s : GalleryState) :
    (applyShowcaseEffect c s).firedSentinels = s.firedSentinels := by
  unfold applyShowcaseEffect
  split
  · split <;> rfl
  · rfl

theorem handleKeydownEvent_assets (s : GalleryState) (k : Key) :
    (handleKeydownEvent s k).assets = s.assets := by
  cases k <;>
    simp only [handleKeydownEvent, decreaseLightboxIndex, increaseLightboxIndex] <;>
    (repeat' split) <;> rfl

theorem handleKeydownEvent_showcaseAssets (s : GalleryState) (k : Key) :
    (handleKeydownEvent s k).showcaseAssets = s.showcaseAssets := by
  cases k <;>
    simp only [handleKeydownEvent, decreaseLightboxIndex, increaseLightboxIndex] <;>
    (repeat' split) <;> rfl

theorem handleKeydownEvent_canLoadMore (s : GalleryState) (k : Key) :
    (handleKeydownEvent s k).canLoadMore = s.canLoadMore := by
  cases k <;>
    simp only [handleKeydownEvent, decreaseLightboxIndex, increaseLightboxIndex] <;>
    (repeat' split) <;> rfl

theorem handleKeydownEvent_currentOffset (s : GalleryState) (k : Key) :
    (handleKeydownEvent s k).currentOffset = s.currentOffset := by
  cases k <;>
    simp only [handleKeydownEvent, decreaseLightboxIndex, increaseLightboxIndex] <;>
    (repeat' split) <;> rfl

theorem handleKeydownEvent_isLoading (s : GalleryState) (k : Key) :
    (handleKeydownEvent s k).isLoading = s.isLoading := by
  cases k <;>
    simp only [handleKeydownEvent, decreaseLightboxIndex, increaseLightboxIndex] <;>
    (repeat' split) <;> rfl

theorem handleKeydownEvent_pending (s : GalleryState) (k : Key) :
    (handleKeydownEvent s k).pending = s.pending := by
  cases k <;>
    simp only [handleKeydownEvent, decreaseLightboxIndex, increaseLightboxIndex] <;>
    (repeat' split) <;> rfl

theorem handleKeydownEvent_firedSentinels (s : GalleryState) (k : Key) :
    (handleKeydownEvent s k).firedSentinels = s.firedSentinels := by
  cases k <;>
    simp only [handleKeydownEvent, decreaseLightboxIndex, increaseLightboxIndex] <;>
    (repeat' split) <;> rfl

theorem mounted_assets (c : Config) (r : String → Except Unit String) :
    (mounted c r).1.assets = [] :=
  issueFetch_assets ..

/-! ### Accumulation of pages (claim C1) -/

theorem step_assets (c : Config) (K : Nat) (r : String → Except Unit String)
    (s : GalleryState) (e : Event) :
    (step c K r s e).1.assets = s.assets ++ (stepPages s e).flatten := by
  cases e with
  | sentinelInView i =>
      simp only [step, stepPages]
      split
      · split
        · simp
        · simp [requestNextPage_assets]
      · simp
  | loadMoreClick =>
      simp only [step, stepPages]
      split
      · simp [requestNextPage_assets]
      · simp
  | fetchResolved result =>
      cases result with
      | error err =>
          simp only [step, stepPages]
          split <;> simp
      | ok rawAssets =>
          simp only [step, stepPages]
          split
          · rename_i hpend
            simp [hpend]
          · rename_i p rest hpend
            simp [hpend, applyShowcaseEffect_assets]
  | keydown k =>
      simp only [step, stepPages]
      simp [handleKeydownEvent_assets]
  | itemClick i =>
      simp only [step, stepPages]
      split <;> simp
  | hashChange h =>
      simp only [step, stepPages]
      simp

theorem run_assets (c : Config) (K : Nat) (r : String → Except Unit String) :
    ∀ (es : List Event) (s : GalleryState),
    (run c K r s es).1.assets = s.assets ++ (okPagesRun c K r s es).flatten := by
  intro es
  induction es with
  | nil => intro s; simp [run, okPagesRun]
  | cons e es ih =>
      intro s
      simp [run, okPagesRun, ih, step_assets, List.append_assoc]

/-- Claim C1: for every sequence of N successful page fetches on one
controller instance, the accumulated asset list after the N-th fetch equals
the concatenation of the N returned pages in fetch order.  In the model: a
`run` only ever appends, at the end and in order, the verbatim pages of the
successful fetch resolutions (`okPagesRun`), so earlier entries are never
mutated; starting from the mounted state (empty list) the accumulated list
is exactly the concatenation of the returned pages. -/
theorem C1_accumulated_concat (c : Config) (K : Nat) (r : String → Except Unit String) :
    (∀ (s : GalleryState) (es : List Event),
        (run c K r s es).1.assets = s.assets ++ (okPagesRun c K r s es).flatten)
    ∧ ∀ es : List Event,
        (run c K r (mounted c r).1 es).1.assets
          = (okPagesRun c K r (mounted c r).1 es).flatten := by
  constructor
  · intro s es
    exact run_assets c K r es s
  · intro es
    rw [run_assets c K r es, mounted_assets]
    simp

/-- Claim C2: after every completed page fetch, `canLoadMore` is true iff the
length of the returned page equals the page-size constant (line 148), and no
other event ever changes `canLoadMore` — the length comparison is the sole
exhaustion signal. -/
theorem C2_exhaustion_signal (c : Config) (K : Nat) (r : String → Except Unit String)
    (s : GalleryState) (rawAssets : List OpenseaAsset) (p : Pending) (rest : List Pending)
    (hp : s.pending = p :: rest) :
    ((step c K r s (.fetchResolved (.ok rawAssets))).1.canLoadMore = true
       ↔ rawAssets.length = K)
    ∧ ∀ e : Event, stepPages s e = [] →
        (step c K r s e).1.canLoadMore = s.canLoadMore := by
  constructor
  · simp only [step, hp]
    simp [applyShowcaseEffect_canLoadMore]
  · intro e he
    cases e with
    | sentinelInView i =>
        simp only [step]
        split
        · split
          · rfl
          · simp [requestNextPage_canLoadMore]
        · rfl
    | loadMoreClick =>
        simp only [step]
        split
        · simp [requestNextPage_canLoadMore]
        · rfl
    | fetchResolved result =>
        cases result with
        | error err =>
            simp only [step]
            split <;> rfl
        | ok raw2 =>
            exfalso
            simp [stepPages, hp] at he
    | keydown k => simp [step, handleKeydownEvent_canLoadMore]
    | itemClick i =>
        simp only [step]
        split <;> rfl
    | hashChange h => simp [step]

/-- Witness for C2 at a concrete state with one in-flight fetch and a
one-item page against page size 2. -/
theorem C2_exhaustion_signal_witness :
    (({ initState with pending := [⟨0, true⟩] } : GalleryState).pending
        = [(⟨0, true⟩ : Pending)])
    ∧ (((step cfgButton 2 okResolver { initState with pending := [⟨0, true⟩] }
          (.fetchResolved (.ok [mkAsset 0]))).1.canLoadMore = true
        ↔ ([mkAsset 0] : List OpenseaAsset).length = 2)
    ∧ ∀ e : Event, stepPages { initState with pending := [⟨0, true⟩] } e = [] →
        (step cfgButton 2 okResolver { initState with pending := [⟨0, true⟩] } e).1.canLoadMore
          = ({ initState with pending := [⟨0, true⟩] } : GalleryState).canLoadMore) :=
  ⟨rfl, C2_exhaustion_signal cfgButton 2 okResolver _ [mkAsset 0] ⟨0, true⟩ [] rfl⟩

/-! ### Claim C3: no in-flight guard exists -/

theorem requestNextPage_calls_ne_nil (c : Config) (K : Nat)
    (r : String → Except Unit String) (s : GalleryState) :
    (requestNextPage c K r s).2 ≠ [] :=
  issueFetch_calls_ne_nil c r { s with currentOffset := s.currentOffset + K }

/-- Claim C3 is false as stated: from the mounted state (page size 20), after
the first page resolves full and a load-more click puts a fetch at offset 20
in flight, a second load-more click while that fetch is still in flight
advances the page cursor from 20 to 40 and issues a second network call. -/
theorem C3_counterexample :
    let s1 := (run cfgButton 20 okResolver (mounted cfgButton okResolver).1
        [.fetchResolved (.ok ((List.range 20).map mkAsset)), .loadMoreClick]).1
    s1.pending ≠ [] ∧ s1.currentOffset = 20
      ∧ (step cfgButton 20 okResolver s1 .loadMoreClick).1.currentOffset = 40
      ∧ (step cfgButton 20 okResolver s1 .loadMoreClick).2
          = [.fetchAssets "0xowner" 40] := by
  decide

/-- Claim C3, amended: the code has no in-flight guard.  While a fetch is in
flight, a manual load-more intent (the button stays rendered because
`canLoadMore` is still true and only the initial load sets `isLoading`)
still advances the page cursor by the page size and immediately issues
another adapter call; only re-raising sentinel-in-view on an already-fired
sentinel is a no-op, due to the `InView` `triggerOnce` flag, not to any
in-flight check. -/
theorem C3_amended_no_guard (c : Config) (K : Nat)
    (r : String → Except Unit String) (s : GalleryState)
    (hbtn : c.hasLoadMoreButton = true) (hcan : s.canLoadMore = true)
    (hload : s.isLoading = false) (_hflight : s.pending ≠ []) :
    ((step c K r s .loadMoreClick).1.currentOffset = s.currentOffset + K
     ∧ (step c K r s .loadMoreClick).2 ≠ [])
    ∧ ∀ i : Nat, i ∈ s.firedSentinels → step c K r s (.sentinelInView i) = (s, []) := by
  constructor
  · have hcond : c.hasLoadMoreButton = true ∧ s.canLoadMore = true ∧ s.isLoading = false :=
      ⟨hbtn, hcan, hload⟩
    simp only [step, if_pos hcond]
    exact ⟨requestNextPage_currentOffset .., requestNextPage_calls_ne_nil c K r s⟩
  · intro i hi
    have hnot : ¬(i < (displayedAssets c s).length ∧ (i + 1) % K = 0 ∧
        i ∉ s.firedSentinels ∧ s.isLoading = false) :=
      fun hcond => hcond.2.2.1 hi
    simp only [step, if_neg hnot]

/-- Witness for the amended C3 at a concrete in-flight state. -/
theorem C3_amended_no_guard_witness :
    (cfgButton.hasLoadMoreButton = true ∧ sInflight.canLoadMore = true
      ∧ sInflight.isLoading = false ∧ sInflight.pending ≠ [])
    ∧ (((step cfgButton 20 okResolver sInflight .loadMoreClick).1.currentOffset
          = sInflight.currentOffset + 20
        ∧ (step cfgButton 20 okResolver sInflight .loadMoreClick).2 ≠ [])
      ∧ ∀ i : Nat, i ∈ sInflight.firedSentinels →
          step cfgButton 20 okResolver sInflight (.sentinelInView i) = (sInflight, [])) :=
  ⟨by decide,
   C3_amended_no_guard cfgButton 20 okResolver sInflight rfl rfl rfl (by decide)⟩

/-! ### Claim C5: ENS resolution before the first page fetch -/

/-- Claim C5: the mounted component issues the `loadAssets` call trace at
offset 0.  For an owner matching the name-service suffix convention the
resolution call comes first and the page fetch is issued only after it
yields an address, using that resolved address; if resolution fails no page
fetch is issued.  For a non-matching owner no resolution call is made and
the owner identity is used directly. -/
theorem C5_ens_resolution (c : Config) (r : String → Except Unit String) :
    ((mounted c r).2 = loadAssetsCalls c.ownerAddress c.contractAddress c.devnet 0 r)
    ∧ (isEnsDomain c.ownerAddress = true →
        (∀ addr : String, r c.ownerAddress = .ok addr →
            loadAssetsCalls c.ownerAddress c.contractAddress c.devnet 0 r
              = [.resolveName c.ownerAddress,
                 fetchPageCall addr c.contractAddress c.devnet 0])
        ∧ (r c.ownerAddress = .error () →
            loadAssetsCalls c.ownerAddress c.contractAddress c.devnet 0 r
              = [.resolveName c.ownerAddress]))
    ∧ (isEnsDomain c.ownerAddress = false →
        loadAssetsCalls c.ownerAddress c.contractAddress c.devnet 0 r
          = [fetchPageCall c.ownerAddress c.contractAddress c.devnet 0]) := by
  refine ⟨issueFetch_calls c r initState, fun hens => ⟨?_, ?_⟩, fun hnot => ?_⟩
  · intro addr haddr
    simp [loadAssetsCalls, hens, haddr]
  · intro herr
    simp [loadAssetsCalls, hens, herr]
  · simp [loadAssetsCalls, hnot]

/-- Witness for C5: the spec's concrete scenario, owner `vitalik.eth`. -/
theorem C5_ens_resolution_witness :
    isEnsDomain "vitalik.eth" = true
    ∧ loadAssetsCalls "vitalik.eth" "" false 0 vitalikResolver
        = [.resolveName "vitalik.eth", fetchPageCall "0xd8dA0000" "" false 0] :=
  ⟨by decide,
   ((C5_ens_resolution cfgEns vitalikResolver).2.1 (by decide)).1 "0xd8dA0000" (by decide)⟩

/-! ### Claim C6: failure leaves the state frozen -/

/-- Claim C6: when a page fetch fails, the only state change is that the
fetch is no longer outstanding — the accumulated list, the has-more flag,
the cursor and the (possibly engaged) loading indicator are all unchanged
and no further adapter call is issued (no automatic retry).  When the
preceding name resolution fails, the only change is the initial-loading
flag possibly being engaged (and it stays engaged), and the calls made
include no page fetch.  The cursor advanced at `requestNextPage` time,
before the fetch could fail, and is never rolled back. -/
theorem C6_failure_frozen (c : Config) (K : Nat) (r : String → Except Unit String)
    (s : GalleryState) (p : Pending) (rest : List Pending) (hp : s.pending = p :: rest) :
    ((step c K r s (.fetchResolved (.error ()))).1 = { s with pending := rest }
     ∧ (step c K r s (.fetchResolved (.error ()))).2 = [])
    ∧ (∀ s2 : GalleryState, isEnsDomain c.ownerAddress = true →
        r c.ownerAddress = .error () →
          (issueFetch c r s2).1
            = { s2 with isLoading := if s2.assets.isEmpty then true else s2.isLoading }
          ∧ ∀ call ∈ (issueFetch c r s2).2, isFetchCall call = false)
    ∧ ∀ s3 : GalleryState, (requestNextPage c K r s3).1.currentOffset
        = s3.currentOffset + K := by
  refine ⟨?_, fun s2 hens herr => ⟨?_, ?_⟩, fun s3 => requestNextPage_currentOffset ..⟩
  · simp [step, hp]
  · simp [issueFetch, hens, herr, exceptFailed]
  · intro call hcall
    rw [issueFetch_calls] at hcall
    simp [loadAssetsCalls, hens, herr] at hcall
    rw [hcall]
    rfl

/-- Witness for C6 at a concrete failing state. -/
theorem C6_failure_frozen_witness :
    ((step cfgEns 20 failResolver sFail (.fetchResolved (.error ()))).1
        = { sFail with pending := [] }
     ∧ (step cfgEns 20 failResolver sFail (.fetchResolved (.error ()))).2 = [])
    ∧ sFail.isLoading = true
    ∧ ({ sFail with pending := ([] : List Pending) }).isLoading = true :=
  ⟨(C6_failure_frozen cfgEns 20 failResolver sFail ⟨20, false⟩ [] rfl).1,
   by decide, by decide⟩

/-! ### Claim C7: the showcase filter -/

/-- Claim C7: `updateShowcaseAssets` is a pure function of the accumulated
list and the id allow-list (it is a Lean function, so re-running it on the
same inputs yields the same result and it mutates nothing and issues no
calls).  Its output is exactly the ordered subsequence of the input list
whose composite key belongs to the allow-list: it is a sublist of the input
(so its order is the input list's order, not the allow-list's), every
element's key is allowed, every allowed element of the input occurs in it,
and any sublist of allowed elements is a sublist of it (maximality). -/
theorem C7_showcase_filter (l : List OpenseaAsset) (ids : List String) :
    (updateShowcaseAssets l ids).Sublist l
    ∧ (∀ a ∈ updateShowcaseAssets l ids, ids.contains (compositeKey a) = true)
    ∧ (∀ a : OpenseaAsset, a ∈ l → ids.contains (compositeKey a) = true →
        a ∈ updateShowcaseAssets l ids)
    ∧ ∀ sub : List OpenseaAsset, sub.Sublist l →
        (∀ a ∈ sub, ids.contains (compositeKey a) = true) →
        sub.Sublist (updateShowcaseAssets l ids) := by
  unfold updateShowcaseAssets
  refine ⟨List.filter_sublist _, ?_, ?_, ?_⟩
  · intro a ha
    exact (List.mem_filter.mp ha).2
  · intro a hal hk
    exact List.mem_filter.mpr ⟨hal, hk⟩
  · intro sub hsub hall
    have h1 : sub.filter (fun a => ids.contains (compositeKey a)) = sub :=
      List.filter_eq_self.mpr hall
    have h2 := List.Sublist.filter (fun a => ids.contains (compositeKey a)) hsub
    rw [h1] at h2
    exact h2

/-- Witness for C7: the spec's concrete scenario, keys `0xc/1` and `0xc/2`
with allow-list `[0xc/1]` — exactly the first asset is kept. -/
theorem C7_showcase_filter_witness :
    (updateShowcaseAssets [mkAsset 1, mkAsset 2] ["0xc/1"]).Sublist [mkAsset 1, mkAsset 2]
    ∧ updateShowcaseAssets [mkAsset 1, mkAsset 2] ["0xc/1"] = [mkAsset 1] :=
  ⟨(C7_showcase_filter [mkAsset 1, mkAsset 2] ["0xc/1"]).1, by decide⟩

/-! ### Claim C8: showcase mode with no allow-list renders nothing -/

theorem applyShowcaseEffect_none (c : Config) (s : GalleryState)
    (hids : c.showcaseItemIds = none) : applyShowcaseEffect c s = s := by
  simp [applyShowcaseEffect, hids]

theorem showcase_none_step (c : Config) (K : Nat) (r : String → Except Unit String)
    (s : GalleryState) (e : Event) (hids : c.showcaseItemIds = none)
    (hsc : s.showcaseAssets = []) :
    (step c K r s e).1.showcaseAssets = [] := by
  cases e with
  | sentinelInView i =>
      simp only [step]
      split
      · split
        · exact hsc
        · rw [requestNextPage_showcaseAssets]
          exact hsc
      · exact hsc
  | loadMoreClick =>
      simp only [step]
      split
      · rw [requestNextPage_showcaseAssets]
        exact hsc
      · exact hsc
  | fetchResolved result =>
      cases result with
      | error err =>
          simp only [step]
          split <;> exact hsc
      | ok rawAssets =>
          simp only [step]
          split
          · exact hsc
          · rw [applyShowcaseEffect_none c _ hids]
            exact hsc
  | keydown k =>
      simp only [step]
      rw [handleKeydownEvent_showcaseAssets]
      exact hsc
  | itemClick i =>
      simp only [step]
      split <;> exact hsc
  | hashChange h =>
      simp only [step]
      exact hsc

theorem run_showcase_none (c : Config) (K : Nat) (r : String → Except Unit String)
    (hids : c.showcaseItemIds = none) :
    ∀ (es : List Event) (s : GalleryState), s.showcaseAssets = [] →
      (run c K r s es).1.showcaseAssets = [] := by
  intro es
  induction es with
  | nil =>
      intro s h
      simpa [run] using h
  | cons e es ih =>
      intro s h
      simp only [run]
      exact ih _ (showcase_none_step c K r s e hids h)

/-- Claim C8: with showcase mode enabled and no `showcaseItemIds` supplied,
the displayed asset list is empty in every reachable state — the showcase
`useEffect` never populates `showcaseAssets` (the `Array.isArray` guard
fails), so showcase mode renders nothing rather than falling back to all
accumulated assets. -/
theorem C8_showcase_absent (c : Config) (K : Nat) (r : String → Except Unit String)
    (es : List Event) (hmode : c.showcaseMode = true) (hids : c.showcaseItemIds = none) :
    displayedAssets c (run c K r (mounted c r).1 es).1 = [] := by
  have h0 : (mounted c r).1.showcaseAssets = [] := issueFetch_showcaseAssets ..
  have h := run_showcase_none c K r hids es _ h0
  simp [displayedAssets, hmode, h]

/-- Witness for C8 at a concrete run in which a nonempty page was fetched. -/
theorem C8_showcase_absent_witness :
    cfgShowNone.showcaseMode = true ∧ cfgShowNone.showcaseItemIds = none
    ∧ displayedAssets cfgShowNone
        (run cfgShowNone 2 okResolver (mounted cfgShowNone okResolver).1
          [.fetchResolved (.ok [mkAsset 1, mkAsset 2])]).1 = [] :=
  ⟨rfl, rfl,
   C8_showcase_absent cfgShowNone 2 okResolver
     [.fetchResolved (.ok [mkAsset 1, mkAsset 2])] rfl rfl⟩

/-! ### Claim C10: keydown handling outside an active lightbox, and Escape -/

/-- Claim C10: a keyboard event while the lightbox is not active (the hash
does not contain `lightbox-`, or equals `#lightbox-untarget`) changes
nothing — neither the stored index nor the hash; and Escape while active
navigates to `#lightbox-untarget` while leaving the stored lightbox index
(and everything else) unchanged, so the index is only resynchronised by
later open/navigate intents. -/
theorem C10_keydown_inactive (s : GalleryState) :
    (hasActiveLightbox s.hash = false → ∀ k : Key, handleKeydownEvent s k = s)
    ∧ (hasActiveLightbox s.hash = true →
        handleKeydownEvent s .escape = { s with hash := "#lightbox-untarget" })
    ∧ ∀ h : String, hasActiveLightbox h = false ↔
        (strIncludes h "lightbox-" = false ∨ h = "#lightbox-untarget") := by
  refine ⟨fun h k => ?_, fun h => ?_, fun h => ?_⟩
  · simp [handleKeydownEvent, h]
  · simp [handleKeydownEvent, h]
  · cases hb : strIncludes h "lightbox-" <;> simp [hasActiveLightbox, hb]

/-- Witness for C10: an idle state (empty hash) ignores ArrowRight, and an
active state keeps its index on Escape. -/
theorem C10_keydown_inactive_witness :
    (hasActiveLightbox initState.hash = false
      ∧ handleKeydownEvent initState .arrowRight = initState)
    ∧ hasActiveLightbox sActive.hash = true
    ∧ handleKeydownEvent sActive .escape = { sActive with hash := "#lightbox-untarget" } :=
  ⟨⟨by decide, (C10_keydown_inactive initState).1 (by decide) .arrowRight⟩,
   by decide, (C10_keydown_inactive sActive).2.1 (by decide)⟩

/-! ### Claim C9: lightbox navigation bounds -/

/-- Claim C9 is false as stated (bounds relative to the displayed list): in
showcase mode with two accumulated assets of which one is showcased, the
displayed list has length 1, yet ArrowRight at index 0 moves the lightbox
index to 1, because `increaseLightboxIndex` (line 181) compares against
`assets.length - 1`, not against the displayed list's length. -/
theorem C9_counterexample :
    let s1 := (run cfgShow 2 okResolver (mounted cfgShow okResolver).1
        [.fetchResolved (.ok [mkAsset 1, mkAsset 2]), .itemClick 0,
         .keydown .arrowRight]).1
    s1.lightboxIndex = 1 ∧ (displayedAssets cfgShow s1).length = 1
      ∧ ¬(s1.lightboxIndex < (displayedAssets cfgShow s1).length) := by
  decide

theorem handleKeydownEvent_lightbox_lt (s : GalleryState) (k : Key)
    (hidx : s.lightboxIndex < s.assets.length) :
    (handleKeydownEvent s k).lightboxIndex < s.assets.length := by
  cases k <;>
    simp only [handleKeydownEvent, decreaseLightboxIndex, increaseLightboxIndex]
  case arrowLeft =>
    split
    · split
      · exact hidx
      · simp only []
        omega
    · exact hidx
  case arrowRight =>
    split
    · split
      · exact hidx
      · rename_i hne
        simp only []
        omega
    · exact hidx
  case escape =>
    split <;> exact hidx
  case other =>
    split <;> exact hidx

theorem runKeys_lightbox_lt (ks : List Key) : ∀ s : GalleryState,
    s.lightboxIndex < s.assets.length →
    (runKeys s ks).lightboxIndex < s.assets.length ∧ (runKeys s ks).assets = s.assets := by
  induction ks with
  | nil =>
      intro s h
      exact ⟨h, rfl⟩
  | cons k ks ih =>
      intro s h
      have hstep := handleKeydownEvent_lightbox_lt s k h
      have ha := handleKeydownEvent_assets s k
      have := ih (handleKeydownEvent s k) (by rw [ha]; exact hstep)
      simp only [runKeys] at this ⊢
      rw [ha] at this
      exact this

/-- Claim C9, amended: the lightbox index is bounded by the accumulated list
(`assets`), not the displayed list.  Provided the accumulated list is
nonempty and the index starts within its bounds, every sequence of
previous/next keyboard intents keeps the index within
`[0, assets.length - 1]` (with no wraparound), the accumulated list is
untouched, a previous intent at index 0 leaves the index unchanged, and a
next intent at index `assets.length - 1` leaves the index unchanged. -/
theorem C9_amended_bounds (s : GalleryState) (ks : List Key)
    (hne : s.assets ≠ []) (hidx : s.lightboxIndex < s.assets.length) :
    ((runKeys s ks).lightboxIndex < s.assets.length
     ∧ (runKeys s ks).assets = s.assets)
    ∧ (s.lightboxIndex = 0 → (handleKeydownEvent s .arrowLeft).lightboxIndex = 0)
    ∧ (s.lightboxIndex = s.assets.length - 1 →
        (handleKeydownEvent s .arrowRight).lightboxIndex = s.lightboxIndex) := by
  refine ⟨runKeys_lightbox_lt ks s hidx, fun h0 => ?_, fun htop => ?_⟩
  · simp only [handleKeydownEvent, decreaseLightboxIndex]
    split
    · exact h0
    · exact h0
  · have hlen : 0 < s.assets.length := List.length_pos.mpr hne
    have hcast : (s.lightboxIndex : Int) = (s.assets.length : Int) - 1 := by omega
    simp only [handleKeydownEvent, increaseLightboxIndex]
    split
    · rfl
    · rfl

/-- Witness for the amended C9: two assets, index 1 (the top), ArrowRight
then ArrowLeft twice stays in bounds. -/
theorem C9_amended_bounds_witness :
    (([mkAsset 1, mkAsset 2] : List OpenseaAsset) ≠ [])
    ∧ (({ sActive with assets := [mkAsset 1, mkAsset 2], lightboxIndex := 1 }
          : GalleryState).lightboxIndex < 2)
    ∧ ((runKeys { sActive with assets := [mkAsset 1, mkAsset 2], lightboxIndex := 1 }
          [.arrowRight, .arrowLeft, .arrowLeft]).lightboxIndex < 2
       ∧ (runKeys { sActive with assets := [mkAsset 1, mkAsset 2], lightboxIndex := 1 }
          [.arrowRight, .arrowLeft, .arrowLeft]).assets = [mkAsset 1, mkAsset 2]) :=
  ⟨by decide, by decide,
   (C9_amended_bounds { sActive with assets := [mkAsset 1, mkAsset 2], lightboxIndex := 1 }
      [.arrowRight, .arrowLeft, .arrowLeft] (by decide) (by decide)).1⟩

/-! ### Claim C4: invariant machinery -/

theorem inv_congr (c : Config) (K : Nat) (R : Nat) {s s2 : GalleryState}
    (hInv : Inv c K s R)
    (ha : s2.assets = s.assets) (hsc : s2.showcaseAssets = s.showcaseAssets)
    (hcan : s2.canLoadMore = s.canLoadMore) (hp : s2.pending = s.pending)
    (hf : s2.firedSentinels = s.firedSentinels) : Inv c K s2 R := by
  have hd : displayedAssets c s2 = displayedAssets c s := by
    simp [displayedAssets, ha, hsc]
  constructor
  · rw [hf]
    exact hInv.nodup
  · intro i hi
    rw [hf] at hi
    rw [hd]
    exact hInv.mem i hi
  · intro hb
    rw [hp, hf]
    exact hInv.count hb
  · rw [ha]
    exact hInv.lenle
  · rw [ha, hcan]
    exact hInv.exh
  · constructor
    · intro hm
      rw [hsc]
      exact hInv.rep.1 hm
    · intro hm
      rw [hsc, ha]
      exact hInv.rep.2 hm

theorem inv_fire (c : Config) (K : Nat) (s : GalleryState) (R : Nat) (i : Nat)
    (hInv : Inv c K s R)
    (hlt : i < (displayedAssets c s).length) (hmod : (i + 1) % K = 0)
    (hnotin : i ∉ s.firedSentinels) :
    Inv c K { s with firedSentinels := i :: s.firedSentinels } R := by
  constructor
  · rw [List.nodup_cons]
    exact ⟨hnotin, hInv.nodup⟩
  · intro j hj
    rcases List.mem_cons.mp hj with h | h
    · subst h
      exact ⟨hmod, hlt⟩
    · exact hInv.mem j h
  · intro hb
    have := hInv.count hb
    simp only [List.length_cons]
    omega
  · exact hInv.lenle
  · exact hInv.exh
  · exact hInv.rep

theorem inv_issue (c : Config) (K : Nat) (r : String → Except Unit String)
    (s : GalleryState) (R : Nat) (hInv : Inv c K s R)
    (hroom : c.hasLoadMoreButton = false →
      R + s.pending.length + 1 ≤ s.firedSentinels.length + 1) :
    Inv c K (requestNextPage c K r s).1 R := by
  have ha := requestNextPage_assets c K r s
  have hsc := requestNextPage_showcaseAssets c K r s
  have hcan := requestNextPage_canLoadMore c K r s
  have hf := requestNextPage_firedSentinels c K r s
  have hpl : (requestNextPage c K r s).1.pending.length ≤ s.pending.length + 1 :=
    issueFetch_pending_length c r _
  have hd : displayedAssets c (requestNextPage c K r s).1 = displayedAssets c s := by
    simp [displayedAssets, ha, hsc]
  constructor
  · rw [hf]
    exact hInv.nodup
  · intro i hi
    rw [hf] at hi
    rw [hd]
    exact hInv.mem i hi
  · intro hb
    rw [hf]
    have := hroom hb
    omega
  · rw [ha]
    exact hInv.lenle
  · rw [ha, hcan]
    exact hInv.exh
  · constructor
    · intro hm
      rw [hsc]
      exact hInv.rep.1 hm
    · intro hm
      rw [hsc, ha]
      exact hInv.rep.2 hm

theorem inv_pop (c : Config) (K : Nat) (s : GalleryState) (R : Nat)
    (p : Pending) (rest : List Pending) (hp : s.pending = p :: rest)
    (hInv : Inv c K s R) : Inv c K { s with pending := rest } R := by
  constructor
  · exact hInv.nodup
  · intro j hj
    exact hInv.mem j hj
  · intro hb
    have h2 := hInv.count hb
    rw [hp] at h2
    simp only [List.length_cons] at h2
    show R + rest.length ≤ s.firedSentinels.length + 1
    omega
  · exact hInv.lenle
  · exact hInv.exh
  · exact hInv.rep

theorem applyShowcaseEffect_some_pos (c : Config) (s : GalleryState) (ids : List String)
    (hids : c.showcaseItemIds = some ids)
    (hguard : s.assets.length ≠ 0 ∧ c.showcaseMode = true) :
    applyShowcaseEffect c s
      = { s with showcaseAssets := updateShowcaseAssets s.assets ids } := by
  simp only [applyShowcaseEffect, hids]
  rw [if_pos hguard]

theorem applyShowcaseEffect_some_neg (c : Config) (s : GalleryState) (ids : List String)
    (hids : c.showcaseItemIds = some ids)
    (hguard : ¬(s.assets.length ≠ 0 ∧ c.showcaseMode = true)) :
    applyShowcaseEffect c s = s := by
  simp only [applyShowcaseEffect, hids]
  rw [if_neg hguard]

theorem displayed_mono (c : Config) {s s2 : GalleryState}
    (ha : s.assets.length ≤ s2.assets.length)
    (hsc : c.showcaseMode = true → s.showcaseAssets.length ≤ s2.showcaseAssets.length) :
    (displayedAssets c s).length ≤ (displayedAssets c s2).length := by
  unfold displayedAssets
  cases hm : c.showcaseMode
  · simpa using ha
  · simpa using hsc hm

theorem updateShowcaseAssets_nil (ids : List String) :
    updateShowcaseAssets [] ids = [] := rfl

theorem updateShowcaseAssets_append (l1 l2 : List OpenseaAsset) (ids : List String) :
    updateShowcaseAssets (l1 ++ l2) ids
      = updateShowcaseAssets l1 ids ++ updateShowcaseAssets l2 ids :=
  List.filter_append ..

theorem inv_resolve (c : Config) (K : Nat) (s : GalleryState) (R : Nat)
    (p : Pending) (rest : List Pending) (rawAssets : List OpenseaAsset)
    (hp : s.pending = p :: rest) (hraw : rawAssets.length ≤ K)
    (hInv : Inv c K s R) :
    Inv c K (applyShowcaseEffect c
      { s with pending := rest, assets := s.assets ++ rawAssets,
               canLoadMore := rawAssets.length == K,
               isLoading := if p.closureEmpty then false else s.isLoading }) (R + 1) := by
  have hcount2 : c.hasLoadMoreButton = false →
      (R + 1) + rest.length ≤ s.firedSentinels.length + 1 := by
    intro hb
    have h2 := hInv.count hb
    rw [hp] at h2
    simp only [List.length_cons] at h2
    omega
  have hlen2 : (s.assets ++ rawAssets).length ≤ (R + 1) * K := by
    rw [List.length_append, Nat.succ_mul]
    exact Nat.add_le_add hInv.lenle hraw
  have hexh2 : (rawAssets.length == K) = false →
      R + 1 = 0 ∨ (s.assets ++ rawAssets).length < (R + 1) * K := by
    intro hne
    right
    rw [List.length_append, Nat.succ_mul]
    have hne2 : rawAssets.length ≠ K := by simpa using hne
    exact Nat.add_lt_add_of_le_of_lt hInv.lenle (lt_of_le_of_ne hraw hne2)
  rcases hids : c.showcaseItemIds with _ | ids
  · -- no allow-list supplied: the showcase effect is the identity
    rw [applyShowcaseEffect_none c _ hids]
    constructor
    · exact hInv.nodup
    · intro j hj
      refine ⟨(hInv.mem j hj).1, ?_⟩
      refine lt_of_lt_of_le (hInv.mem j hj).2 (displayed_mono c ?_ ?_)
      · simp
      · intro _
        exact le_refl _
    · intro hb
      exact hcount2 hb
    · exact hlen2
    · exact hexh2
    · constructor
      · intro hm
        exact hInv.rep.1 hm
      · intro hm
        rcases hInv.rep.2 hm with h0 | ⟨ids', hids', _⟩
        · exact Or.inl h0
        · rw [hids] at hids'
          exact Option.noConfusion hids'
  · by_cases hguard : (s.assets ++ rawAssets).length ≠ 0 ∧ c.showcaseMode = true
    · -- the showcase effect recomputes the filtered list
      rw [applyShowcaseEffect_some_pos c _ ids hids hguard]
      constructor
      · exact hInv.nodup
      · intro j hj
        refine ⟨(hInv.mem j hj).1, ?_⟩
        refine lt_of_lt_of_le (hInv.mem j hj).2 (displayed_mono c ?_ ?_)
        · simp
        · intro hm
          show s.showcaseAssets.length
            ≤ (updateShowcaseAssets (s.assets ++ rawAssets) ids).length
          rw [updateShowcaseAssets_append]
          rcases hInv.rep.2 hm with h0 | ⟨ids', hids', hupd⟩
          · rw [h0]
            exact Nat.zero_le _
          · rw [hids] at hids'
            cases Option.some.inj hids'
            rw [hupd, List.length_append]
            exact Nat.le_add_right _ _
      · intro hb
        exact hcount2 hb
      · exact hlen2
      · exact hexh2
      · constructor
        · intro hm
          rw [hm] at hguard
          exact absurd hguard.2 (by simp)
        · intro hm
          exact Or.inr ⟨ids, hids, rfl⟩
    · -- guard failed: either no assets at all, or showcase mode is off
      rw [applyShowcaseEffect_some_neg c _ ids hids hguard]
      constructor
      · exact hInv.nodup
      · intro j hj
        refine ⟨(hInv.mem j hj).1, ?_⟩
        refine lt_of_lt_of_le (hInv.mem j hj).2 (displayed_mono c ?_ ?_)
        · simp
        · intro _
          exact le_refl _
      · intro hb
        exact hcount2 hb
      · exact hlen2
      · exact hexh2
      · constructor
        · intro hm
          exact hInv.rep.1 hm
        · intro hm
          -- the guard can only have failed because there are no assets
          have hempty : (s.assets ++ rawAssets).length = 0 := by
            by_contra hne
            exact hguard ⟨hne, hm⟩
          have hsnil : s.assets = [] := by
            simp only [List.length_append] at hempty
            exact List.eq_nil_of_length_eq_zero (by omega)
          rcases hInv.rep.2 hm with h0 | ⟨ids', _, hupd⟩
          · exact Or.inl h0
          · left
            rw [hupd, hsnil]
            rfl

theorem inv_step (c : Config) (K : Nat) (r : String → Except Unit String)
    (s : GalleryState) (R : Nat) (e : Event)
    (hInv : Inv c K s R) (hok : pageOk K e = true) :
    Inv c K (step c K r s e).1 (R + (stepPages s e).length) := by
  cases e with
  | sentinelInView i =>
      show Inv c K (step c K r s (.sentinelInView i)).1 (R + 0)
      rw [Nat.add_zero]
      simp only [step]
      split
      · rename_i hcond
        obtain ⟨hlt, hmod, hnotin, _⟩ := hcond
        have hInv1 := inv_fire c K s R i hInv hlt hmod hnotin
        split
        · exact hInv1
        · apply inv_issue c K r _ R hInv1
          intro hb
          have h2 := hInv.count hb
          show R + s.pending.length + 1 ≤ (i :: s.firedSentinels).length + 1
          simp only [List.length_cons]
          omega
      · exact hInv
  | loadMoreClick =>
      show Inv c K (step c K r s .loadMoreClick).1 (R + 0)
      rw [Nat.add_zero]
      simp only [step]
      split
      · rename_i hcond
        apply inv_issue c K r s R hInv
        intro hb
        rw [hcond.1] at hb
        exact Bool.noConfusion hb
      · exact hInv
  | fetchResolved result =>
      cases result with
      | error err =>
          show Inv c K (step c K r s (.fetchResolved (.error err))).1 (R + 0)
          rw [Nat.add_zero]
          simp only [step]
          split
          · exact hInv
          · rename_i p rest hpe
            exact inv_pop c K s R p rest hpe hInv
      | ok rawAssets =>
          simp only [step]
          split
          · rename_i hpe
            have h0 : stepPages s (.fetchResolved (.ok rawAssets)) = [] := by
              simp [stepPages, hpe]
            rw [h0]
            simpa using hInv
          · rename_i p rest hpe
            have h1 : stepPages s (.fetchResolved (.ok rawAssets)) = [rawAssets] := by
              simp [stepPages, hpe]
            rw [h1]
            have hraw : rawAssets.length ≤ K := by simpa [pageOk] using hok
            exact inv_resolve c K s R p rest rawAssets hpe hraw hInv
  | keydown k =>
      show Inv c K (handleKeydownEvent s k) (R + 0)
      rw [Nat.add_zero]
      exact inv_congr c K R hInv (handleKeydownEvent_assets s k)
        (handleKeydownEvent_showcaseAssets s k) (handleKeydownEvent_canLoadMore s k)
        (handleKeydownEvent_pending s k) (handleKeydownEvent_firedSentinels s k)
  | itemClick i =>
      show Inv c K (step c K r s (.itemClick i)).1 (R + 0)
      rw [Nat.add_zero]
      simp only [step]
      split
      · exact inv_congr c K R hInv rfl rfl rfl rfl rfl
      · exact hInv
  | hashChange h =>
      show Inv c K (step c K r s (.hashChange h)).1 (R + 0)
      rw [Nat.add_zero]
      exact inv_congr c K R hInv rfl rfl rfl rfl rfl

theorem inv_run (c : Config) (K : Nat) (r : String → Except Unit String) :
    ∀ (es : List Event) (s : GalleryState) (R : Nat),
    Inv c K s R → (∀ e ∈ es, pageOk K e = true) →
    ∃ R2 : Nat, Inv c K (run c K r s es).1 R2 := by
  intro es
  induction es with
  | nil =>
      intro s R h _
      exact ⟨R, h⟩
  | cons e es ih =>
      intro s R h hok
      simp only [run]
      exact ih _ _ (inv_step c K r s R e h (hok e (by simp)))
        (fun e2 he2 => hok e2 (by simp [he2]))

theorem inv_mounted (c : Config) (K : Nat) (r : String → Except Unit String) :
    Inv c K (mounted c r).1 0 := by
  have hp := issueFetch_pending_length c r initState
  have h0 : initState.pending.length = 0 := rfl
  simp only [mounted]
  constructor
  · rw [issueFetch_firedSentinels]
    exact List.nodup_nil
  · intro i hi
    rw [issueFetch_firedSentinels] at hi
    exact absurd hi (List.not_mem_nil i)
  · intro _
    rw [issueFetch_firedSentinels]
    have h1 : initState.firedSentinels.length = 0 := rfl
    omega
  · rw [issueFetch_assets]
    simp [initState]
  · intro _
    exact Or.inl rfl
  · constructor
    · intro _
      rw [issueFetch_showcaseAssets]
      rfl
    · intro _
      left
      rw [issueFetch_showcaseAssets]
      rfl

theorem card_sentinel_positions (K : Nat) (_hK : 0 < K) :
    ∀ n : Nat, ((Finset.range n).filter (fun i => (i + 1) % K = 0)).card = n / K := by
  intro n
  induction n with
  | zero => simp
  | succ n ih =>
      rw [Finset.range_succ, Finset.filter_insert]
      by_cases h : (n + 1) % K = 0
      · rw [if_pos h, Finset.card_insert_of_not_mem (by simp), ih,
            Nat.succ_div_of_dvd (Nat.dvd_iff_mod_eq_zero.mpr h)]
      · rw [if_neg h, ih,
            Nat.succ_div_of_not_dvd (fun hd => h (Nat.dvd_iff_mod_eq_zero.mp hd))]

theorem displayed_length_le (c : Config) (s : GalleryState) (hrep : ShowRep c s) :
    (displayedAssets c s).length ≤ s.assets.length := by
  unfold displayedAssets
  cases hm : c.showcaseMode
  · simp
  · simp only [if_pos]
    rcases hrep.2 hm with h0 | ⟨ids, _, hupd⟩
    · simp [h0]
    · simp only [hupd, updateShowcaseAssets]
      exact List.length_filter_le _ _

theorem quiescent_of_inv (c : Config) (K : Nat) (s : GalleryState) (R : Nat)
    (hK : 0 < K) (hInv : Inv c K s R)
    (hcan : s.canLoadMore = false) (hpend : s.pending = []) :
    Quiescent c K s := by
  refine ⟨hcan, hpend, fun hb i hmod hlt => ?_⟩
  have hdle : (displayedAssets c s).length ≤ s.assets.length :=
    displayed_length_le c s hInv.rep
  have hcount := hInv.count hb
  rw [hpend] at hcount
  simp only [List.length_nil, Nat.add_zero] at hcount
  rcases hInv.exh hcan with hR0 | hlen
  · subst hR0
    have hzero : s.assets.length ≤ 0 := by simpa using hInv.lenle
    omega
  · have hdivlt : s.assets.length / K < R := by
      rw [Nat.div_lt_iff_lt_mul hK]
      exact hlen
    have hpos := card_sentinel_positions K hK (displayedAssets c s).length
    have hsub : s.firedSentinels.toFinset ⊆
        (Finset.range (displayedAssets c s).length).filter (fun j => (j + 1) % K = 0) := by
      intro j hj
      rw [List.mem_toFinset] at hj
      rw [Finset.mem_filter, Finset.mem_range]
      exact ⟨(hInv.mem j hj).2, (hInv.mem j hj).1⟩
    have hcardfired : s.firedSentinels.toFinset.card = s.firedSentinels.length :=
      List.toFinset_card_of_nodup hInv.nodup
    have hdK : (displayedAssets c s).length / K ≤ s.assets.length / K :=
      Nat.div_le_div_right hdle
    have hge : ((Finset.range (displayedAssets c s).length).filter
          (fun j => (j + 1) % K = 0)).card ≤ s.firedSentinels.toFinset.card := by
      rw [hcardfired, hpos]
      omega
    have heq := Finset.eq_of_subset_of_card_le hsub hge
    have hmem : i ∈ (Finset.range (displayedAssets c s).length).filter
        (fun j => (j + 1) % K = 0) := by
      rw [Finset.mem_filter, Finset.mem_range]
      exact ⟨hlt, hmod⟩
    rw [← heq, List.mem_toFinset] at hmem
    exact hmem

theorem quiescent_step (c : Config) (K : Nat) (r : String → Except Unit String)
    (s : GalleryState) (e : Event) (hQ : Quiescent c K s) :
    (step c K r s e).2 = []
    ∧ (step c K r s e).1.assets = s.assets
    ∧ (step c K r s e).1.showcaseAssets = s.showcaseAssets
    ∧ (step c K r s e).1.currentOffset = s.currentOffset
    ∧ (step c K r s e).1.canLoadMore = s.canLoadMore
    ∧ (step c K r s e).1.isLoading = s.isLoading
    ∧ (step c K r s e).1.pending = s.pending
    ∧ Quiescent c K (step c K r s e).1 := by
  obtain ⟨hcan, hpend, hsent⟩ := hQ
  cases e with
  | sentinelInView i =>
      simp only [step]
      split
      · rename_i hcond
        obtain ⟨hlt, hmod, hnotin, _⟩ := hcond
        cases hbtn : c.hasLoadMoreButton with
        | false => exact absurd (hsent hbtn i hmod hlt) hnotin
        | true =>
            rw [if_pos rfl]
            refine ⟨rfl, rfl, rfl, rfl, rfl, rfl, rfl, hcan, hpend, fun hb => ?_⟩
            rw [hbtn] at hb
            exact Bool.noConfusion hb
      · exact ⟨rfl, rfl, rfl, rfl, rfl, rfl, rfl, hcan, hpend, hsent⟩
  | loadMoreClick =>
      have hnot : ¬(c.hasLoadMoreButton = true ∧ s.canLoadMore = true
          ∧ s.isLoading = false) := by
        intro h
        rw [hcan] at h
        exact Bool.noConfusion h.2.1
      have hstep : step c K r s .loadMoreClick = (s, []) := by
        simp only [step, if_neg hnot]
      rw [hstep]
      exact ⟨rfl, rfl, rfl, rfl, rfl, rfl, rfl, hcan, hpend, hsent⟩
  | fetchResolved result =>
      have hstep : step c K r s (.fetchResolved result) = (s, []) := by
        simp only [step, hpend]
      rw [hstep]
      exact ⟨rfl, rfl, rfl, rfl, rfl, rfl, rfl, hcan, hpend, hsent⟩
  | keydown k =>
      have hstep : step c K r s (.keydown k) = (handleKeydownEvent s k, []) := rfl
      rw [hstep]
      have hd : displayedAssets c (handleKeydownEvent s k) = displayedAssets c s := by
        simp [displayedAssets, handleKeydownEvent_assets, handleKeydownEvent_showcaseAssets]
      refine ⟨rfl, handleKeydownEvent_assets s k, handleKeydownEvent_showcaseAssets s k,
        handleKeydownEvent_currentOffset s k, handleKeydownEvent_canLoadMore s k,
        handleKeydownEvent_isLoading s k, handleKeydownEvent_pending s k,
        ?_, ?_, ?_⟩
      · rw [handleKeydownEvent_canLoadMore]
        exact hcan
      · rw [handleKeydownEvent_pending]
        exact hpend
      · intro hb j hm hl
        rw [hd] at hl
        rw [handleKeydownEvent_firedSentinels]
        exact hsent hb j hm hl
  | itemClick i =>
      have hstep : step c K r s (.itemClick i)
          = if c.hasLightbox = true ∧ i < (displayedAssets c s).length then
              ({ s with lightboxIndex := i, hash := "#lightbox-" ++ toString i }, [])
            else (s, []) := rfl
      rw [hstep]
      split
      · exact ⟨rfl, rfl, rfl, rfl, rfl, rfl, rfl, hcan, hpend, hsent⟩
      · exact ⟨rfl, rfl, rfl, rfl, rfl, rfl, rfl, hcan, hpend, hsent⟩
  | hashChange h =>
      have hstep : step c K r s (.hashChange h) = ({ s with hash := h }, []) := rfl
      rw [hstep]
      exact ⟨rfl, rfl, rfl, rfl, rfl, rfl, rfl, hcan, hpend, hsent⟩

theorem quiescent_run (c : Config) (K : Nat) (r : String → Except Unit String) :
    ∀ (es : List Event) (s : GalleryState), Quiescent c K s →
    (run c K r s es).2 = []
    ∧ (run c K r s es).1.assets = s.assets
    ∧ (run c K r s es).1.showcaseAssets = s.showcaseAssets
    ∧ (run c K r s es).1.currentOffset = s.currentOffset
    ∧ (run c K r s es).1.canLoadMore = s.canLoadMore
    ∧ (run c K r s es).1.isLoading = s.isLoading
    ∧ (run c K r s es).1.pending = s.pending
    ∧ Quiescent c K (run c K r s es).1 := by
  intro es
  induction es with
  | nil =>
      intro s hQ
      exact ⟨rfl, rfl, rfl, rfl, rfl, rfl, rfl, hQ⟩
  | cons e es ih =>
      intro s hQ
      obtain ⟨hc0, ha0, hsc0, ho0, hcan0, hl0, hp0, hQ1⟩ := quiescent_step c K r s e hQ
      obtain ⟨hc1, ha1, hsc1, ho1, hcan1, hl1, hp1, hQ2⟩ := ih (step c K r s e).1 hQ1
      simp only [run]
      refine ⟨?_, ?_, ?_, ?_, ?_, ?_, ?_, hQ2⟩
      · rw [hc0, hc1]
        rfl
      · rw [ha1, ha0]
      · rw [hsc1, hsc0]
      · rw [ho1, ho0]
      · rw [hcan1, hcan0]
      · rw [hl1, hl0]
      · rw [hp1, hp0]

/-- Claim C4 is false as stated: exhaustion is not latched.  With page size
2 in button mode: the first page resolves full; two load-more clicks put two
fetches in flight (the code has no in-flight guard); the first resolves
short — a fetch has now returned fewer items than the page size and
`canLoadMore` is false; but when the second in-flight fetch then resolves
full, `canLoadMore` flips back to true and a subsequent load-more click — a
`requestNextPage` intent after exhaustion, with no reinitialization — issues
a new network fetch. -/
theorem C4_counterexample :
    let sA := (run cfgButton 2 okResolver (mounted cfgButton okResolver).1
        [.fetchResolved (.ok [mkAsset 0, mkAsset 1]), .loadMoreClick, .loadMoreClick,
         .fetchResolved (.ok [mkAsset 2])]).1
    ([mkAsset 2] : List OpenseaAsset).length < 2
      ∧ sA.canLoadMore = false
      ∧ (run cfgButton 2 okResolver sA
          [.fetchResolved (.ok [mkAsset 3, mkAsset 4]), .loadMoreClick]).2
          = [.fetchAssets "0xowner" 6] := by
  decide

/-- Claim C4, amended: the no-op guarantee holds for sequential operation.
If every page respects the adapter contract (at most `K` items) and, after
some run from the mounted state, `canLoadMore` is false (a short page was
the latest resolution) with no other fetch still in flight, then every
subsequent event sequence issues no adapter call at all and leaves the
accumulated list, showcase list, cursor, has-more flag, loading flag and
(empty) in-flight set unchanged: the load-more button is no longer
rendered, every sentinel position of the displayed list has already spent
its `triggerOnce` observer, and with nothing in flight nothing can resolve.
If instead a fetch was still in flight at exhaustion, it can resolve full
and re-enable load-more (see the counterexample). -/
theorem C4_amended_exhaustion (c : Config) (K : Nat) (r : String → Except Unit String)
    (es1 es2 : List Event) (hK : 0 < K)
    (hok : ∀ e ∈ es1, pageOk K e = true)
    (hexh : (run c K r (mounted c r).1 es1).1.canLoadMore = false)
    (hseq : (run c K r (mounted c r).1 es1).1.pending = []) :
    (run c K r (run c K r (mounted c r).1 es1).1 es2).2 = []
    ∧ (run c K r (run c K r (mounted c r).1 es1).1 es2).1.assets
        = (run c K r (mounted c r).1 es1).1.assets
    ∧ (run c K r (run c K r (mounted c r).1 es1).1 es2).1.showcaseAssets
        = (run c K r (mounted c r).1 es1).1.showcaseAssets
    ∧ (run c K r (run c K r (mounted c r).1 es1).1 es2).1.currentOffset
        = (run c K r (mounted c r).1 es1).1.currentOffset
    ∧ (run c K r (run c K r (mounted c r).1 es1).1 es2).1.canLoadMore = false
    ∧ (run c K r (run c K r (mounted c r).1 es1).1 es2).1.pending = [] := by
  obtain ⟨R2, hInv2⟩ := inv_run c K r es1 (mounted c r).1 0 (inv_mounted c K r) hok
  have hQ := quiescent_of_inv c K _ R2 hK hInv2 hexh hseq
  obtain ⟨hc, ha, hsc, ho, hcan, _, hp, _⟩ := quiescent_run c K r es2 _ hQ
  refine ⟨hc, ha, hsc, ho, ?_, ?_⟩
  · rw [hcan]
    exact hexh
  · rw [hp]
    exact hseq

/-- Witness for the amended C4: page size 2, the single (mount) fetch
resolves with one item — a short page with nothing else in flight — and a
subsequent sentinel-in-view plus load-more click issue nothing. -/
theorem C4_amended_exhaustion_witness :
    (0 < 2 ∧ (∀ e ∈ ([.fetchResolved (.ok [mkAsset 0])] : List Event),
        pageOk 2 e = true)
      ∧ (run cfgButton 2 okResolver (mounted cfgButton okResolver).1
          [.fetchResolved (.ok [mkAsset 0])]).1.canLoadMore = false
      ∧ (run cfgButton 2 okResolver (mounted cfgButton okResolver).1
          [.fetchResolved (.ok [mkAsset 0])]).1.pending = [])
    ∧ (run cfgButton 2 okResolver
        (run cfgButton 2 okResolver (mounted cfgButton okResolver).1
          [.fetchResolved (.ok [mkAsset 0])]).1
        [.sentinelInView 1, .loadMoreClick]).2 = [] :=
  ⟨⟨by decide, by decide, by decide, by decide⟩,
   (C4_amended_exhaustion cfgButton 2 okResolver [.fetchResolved (.ok [mkAsset 0])]
      [.sentinelInView 1, .loadMoreClick] (by decide) (by decide) (by decide)
      (by decide)).1⟩

end NftGallery
